import Mathlib

/-!
Shallow embedding of `globus_portal_framework/middleware.py`.

The module defines two Django middleware classes:

* `ExpiredTokenMiddleware.process_exception` — catches the
  `ExpiredGlobusToken` exception, logs the user out and redirects to the
  login route with a `next` query parameter holding the URL-encoded
  original path.
* `GlobusAuthExceptionMiddleware.process_exception` — catches the
  `AuthForbidden` exception and decides among several redirect outcomes
  based on the exception payload and the
  `SOCIAL_AUTH_GLOBUS_GROUP_JOIN_URL` setting.

Python values reachable from the exception payload are modelled by
`PyVal`; Python exceptions raised while handling (IndexError, KeyError,
TypeError) by `PyErr`.  Side effects (session writes, logout, log
entries) are returned explicitly in the outcome records.  Request paths
are modelled at the byte level (the UTF-8 bytes on which
`urllib.parse.quote_plus` operates).
-/

/-! ## Python value model -/

/-- A Python value, restricted to the shapes the middleware can touch.
Dictionaries are association lists of string keys (the payload uses only
string keys); Python literals with duplicate keys do not occur here. -/
inductive PyVal where
  | vnone : PyVal
  | vint : Int → PyVal
  | vstr : String → PyVal
  | vlist : List PyVal → PyVal
  | vtuple : List PyVal → PyVal
  | vdict : List (String × PyVal) → PyVal

/-- Python exceptions that the handler body can raise. -/
inductive PyErr where
  | indexError : PyErr
  | typeError : PyErr
  | keyError : String → PyErr
deriving DecidableEq, Repr

/-- Python truthiness (`bool(v)`) for the modelled values. -/
def PyVal.truthy : PyVal → Bool
  | .vnone => false
  | .vint n => n != 0
  | .vstr s => !(s == "")
  | .vlist xs => !xs.isEmpty
  | .vtuple xs => !xs.isEmpty
  | .vdict es => !es.isEmpty

/-- Python `d.get(k)`: the value at the first matching key, `None` when
absent. -/
def dictGet (es : List (String × PyVal)) (k : String) : PyVal :=
  match es.find? (fun e => e.1 == k) with
  | some e => e.2
  | none => PyVal.vnone

/-- Python iteration (`for g in v`): lists and tuples yield elements,
strings yield one-character strings, dicts yield keys; other values raise
TypeError. -/
def pyIter : PyVal → Except PyErr (List PyVal)
  | .vlist xs => .ok xs
  | .vtuple xs => .ok xs
  | .vstr s => .ok (s.toList.map (fun c => PyVal.vstr (String.singleton c)))
  | .vdict es => .ok (es.map (fun e => PyVal.vstr e.1))
  | _ => .error PyErr.typeError

/-- Python subscripting with a string key (`g[k]`): dicts look the key up
(KeyError when absent); every other modelled value raises TypeError for a
string index. -/
def pyGetItem (k : String) : PyVal → Except PyErr PyVal
  | .vdict es =>
    match es.find? (fun e => e.1 == k) with
    | some e => .ok e.2
    | none => .error (PyErr.keyError k)
  | _ => .error PyErr.typeError

/-- Python `','.join(vs)`: every element must be a string, otherwise
TypeError. -/
def pyJoinComma (vs : List PyVal) : Except PyErr String :=
  match vs.mapM (fun v => match v with
    | PyVal.vstr s => Except.ok s
    | _ => Except.error PyErr.typeError) with
  | .ok ss => .ok (String.intercalate (",") ss)
  | .error e => .error e

/-- Truthiness of an optional string, as `getattr(settings, name, None)`
followed by `if value:` sees it: `None` and the empty string are falsy. -/
def optStrTruthy : Option String → Bool
  | none => false
  | some s => !(s == "")

/-! ## URL encoding (`urllib.parse.urlencode` / `quote_plus`) -/

/-- Bytes that `quote_plus` leaves unescaped: ASCII letters, digits, and
the characters `_ . - ~` (the always-safe set, with no extra safe
characters). -/
def safeByte (b : Fin 256) : Bool :=
  (48 ≤ b.val && b.val ≤ 57) || (65 ≤ b.val && b.val ≤ 90) ||
  (97 ≤ b.val && b.val ≤ 122) ||
  b.val == 45 || b.val == 46 || b.val == 95 || b.val == 126

/-- Uppercase hexadecimal digit for a value below 16. -/
def hexDigitChar (n : Nat) : Char :=
  if n < 10 then Char.ofNat (48 + n) else Char.ofNat (55 + n)

/-- `quote_plus` on one byte: safe bytes pass through, the space becomes
a plus sign, everything else becomes a percent escape. -/
def encodeByteChars (b : Fin 256) : List Char :=
  if safeByte b then [Char.ofNat b.val]
  else if b.val = 32 then ['+']
  else ['%', hexDigitChar (b.val / 16), hexDigitChar (b.val % 16)]

/-- `quote_plus` over the UTF-8 bytes of the input, as a character list. -/
def quotePlusChars : List (Fin 256) → List Char
  | [] => []
  | b :: rest => encodeByteChars b ++ quotePlusChars rest

/-- `quote_plus` over the UTF-8 bytes of the input. -/
def quotePlus (bs : List (Fin 256)) : String :=
  String.mk (quotePlusChars bs)

/-- Value of one hexadecimal digit character, upper or lower case. -/
def hexVal (c : Char) : Option Nat :=
  if 48 ≤ c.toNat && c.toNat ≤ 57 then some (c.toNat - 48)
  else if 65 ≤ c.toNat && c.toNat ≤ 70 then some (c.toNat - 55)
  else if 97 ≤ c.toNat && c.toNat ≤ 102 then some (c.toNat - 87)
  else none

/-- The byte of a character (URL output characters are ASCII). -/
def byteOfChar (c : Char) : Fin 256 :=
  ⟨c.toNat % 256, Nat.mod_lt _ (by decide)⟩

/-- The byte of a valid two-digit escape, `none` for an invalid escape. -/
def decodeEscape (h1 h2 : Char) : Option (Fin 256) :=
  match hexVal h1, hexVal h2 with
  | some a, some b => some ⟨(16 * a + b) % 256, Nat.mod_lt _ (by decide)⟩
  | _, _ => none

/-- `urllib.parse.unquote_plus`: a plus sign decodes to the space byte, a
percent sign followed by two hexadecimal digits decodes to that byte, an
invalid escape passes through unchanged, every other character passes
through as its byte. -/
def percentDecodeChars : List Char → List (Fin 256)
  | [] => []
  | '%' :: h1 :: h2 :: rest =>
    match decodeEscape h1 h2 with
    | some byte => byte :: percentDecodeChars rest
    | none => byteOfChar '%' :: percentDecodeChars (h1 :: h2 :: rest)
  | '+' :: rest => (⟨32, by decide⟩ : Fin 256) :: percentDecodeChars rest
  | c :: rest => byteOfChar c :: percentDecodeChars rest

/-- URL-decode a string back to bytes. -/
def percentDecode (s : String) : List (Fin 256) :=
  percentDecodeChars s.toList

/-! ## Middleware data model -/

/-- Severity of a log entry (`log.info` / `log.warning`). -/
inductive LogLevel where
  | info : LogLevel
  | warning : LogLevel
deriving DecidableEq, Repr

/-- One emitted log entry. -/
structure LogEntry where
  level : LogLevel
  message : String
deriving DecidableEq, Repr

/-- The decision a middleware returns: an `HttpResponseRedirect` to a URL,
or `None` (no decision, framework default handling proceeds). -/
inductive Decision where
  | redirect : String → Decision
  | noDecision : Decision
deriving DecidableEq, Repr

/-- The parts of the Django request the middleware reads: `request.user`
(rendered into the log message) and `request.get_full_path()`, the path
with its query string, as UTF-8 bytes. -/
structure Request where
  user : String
  fullPath : List (Fin 256)
deriving DecidableEq, Repr

/-- The one Django setting the middleware consults, as
`getattr(settings, name, None)` delivers it: `none` when the attribute is
absent. -/
structure Settings where
  SOCIAL_AUTH_GLOBUS_GROUP_JOIN_URL : Option String
deriving DecidableEq, Repr

/-- The exceptions distinguished by the two handlers: `ExpiredGlobusToken`
(no payload is read from it), `AuthForbidden` carrying its `args`
attribute, and any other exception. -/
inductive Exc where
  | expiredGlobusToken : Exc
  | authForbidden : PyVal → Exc
  | other : Exc

/-- Django `reverse` on the route `social:begin` with
`backend = globus`: the path that starts the identity-provider login
handshake.  The route itself lives in the external `social_django` URL
configuration; its concrete value is opaque to the middleware, which only
interpolates it. -/
def socialBeginPath : String := "/login/globus/"

/-! ## ExpiredTokenMiddleware (middleware.py lines 15-33) -/

/-- Everything `ExpiredTokenMiddleware.process_exception` produces: the
returned decision, whether `auth.logout(request)` ran, and the log entries
emitted. -/
structure ETOutcome where
  decision : Decision
  loggedOut : Bool
  logs : List LogEntry
deriving DecidableEq, Repr

/-- `ExpiredTokenMiddleware.process_exception` (middleware.py lines
25-33): on `ExpiredGlobusToken`, log an info entry naming the user, log
the user out and redirect to the login route with a `next` parameter
carrying the URL-encoded original path (`urlencode` applied to a one-key
dict, which is `quote_plus` on the value); on any other exception fall
through, returning `None` with no side effect. -/
def ExpiredTokenMiddleware.process_exception (request : Request) (exception : Exc) :
    ETOutcome :=
  match exception with
  | .expiredGlobusToken =>
    { decision := .redirect
        (socialBeginPath ++ ("?") ++ ("next=") ++ quotePlus request.fullPath)
      loggedOut := true
      logs := [{ level := .info
                 message := ("Tokens expired for user ") ++ request.user ++
                   (", redirecting to login.") }] }
  | _ => { decision := .noDecision, loggedOut := false, logs := [] }

/-! ## GlobusAuthExceptionMiddleware (middleware.py lines 36-98) -/

/-- Everything `GlobusAuthExceptionMiddleware.process_exception` produces
when it returns normally: the decision, the `strategy.session_set` writes
in order, and the log entries emitted. -/
structure GAOutcome where
  decision : Decision
  sessionWrites : List (String × String)
  logs : List LogEntry
deriving DecidableEq, Repr

/-- An abnormal return: the Python exception raised together with the
session writes already performed before the raise. -/
abbrev GAResult := Except (PyErr × List (String × String)) GAOutcome

/-- The `return None` outcome (falling off the end of a guard). -/
def gaNoDecision : GAOutcome :=
  { decision := .noDecision, sessionWrites := [], logs := [] }

/-- The informational session message (middleware.py lines 66-72).  The
source builds it with `str.format` applied to the list of usernames, but
the template contains no placeholder, so `format` returns the template
unchanged and the username list is discarded. -/
def sessionMessageText : String :=
  ("Your current account does not have sufficient access to this ") ++
  ("resource, but one of your linked identities does. Please ") ++
  ("login with one of those identities listed below.")

/-- The warning logged when no join URL is available (middleware.py lines
96-98). -/
def groupWarningText : String :=
  ("Authenticating to a group failed due to group not being ") ++
  ("visible and settings.SOCIAL_AUTH_GLOBUS_GROUP_JOIN_URL ") ++
  ("not being set. You should reconfigure one of these.")

/-- The `return None` plus warning outcome at the end of the handler. -/
def gaWarnOutcome : GAOutcome :=
  { decision := .noDecision, sessionWrites := []
    logs := [{ level := .warning, message := groupWarningText }] }

/-- The eligible-identity branch (middleware.py lines 62-79), entered when
`allowed_user_member_groups` is truthy.  Evaluation order follows the
source: the `identity_id` comprehension runs first, then the `username`
comprehension (evaluated as the argument of `str.format` before
`session_set` executes, and then discarded), then the message write, then
`','.join(req_ids)`, then the second write and the redirect. -/
def allowedGroupsBranch (allowed_user_member_groups : PyVal) : GAResult :=
  match pyIter allowed_user_member_groups with
  | .error e => .error (e, [])
  | .ok gs =>
    match gs.mapM (pyGetItem ("identity_id")) with
    | .error e => .error (e, [])
    | .ok req_ids =>
      match gs.mapM (pyGetItem ("username")) with
      | .error e => .error (e, [])
      | .ok _usernames =>
        match pyJoinComma req_ids with
        | .error e => .error (e, [(("session_message"), sessionMessageText)])
        | .ok req_ids_string =>
          .ok { decision := .redirect socialBeginPath
                sessionWrites :=
                  [(("session_message"), sessionMessageText),
                   (("session_required_identities"), req_ids_string)]
                logs := [] }

/-- The payload join-URL fallback (middleware.py lines 92-98): redirect to
a truthy `group_join_url` from the payload (`HttpResponseRedirect` raises
TypeError for a non-string argument, via `iri_to_uri` and `quote`),
otherwise return `None` and log the warning. -/
def groupJoinFallback (kwargs : List (String × PyVal)) : GAResult :=
  let group_join_url := dictGet kwargs ("group_join_url")
  if group_join_url.truthy then
    match group_join_url with
    | .vstr s => .ok { decision := .redirect s, sessionWrites := [], logs := [] }
    | _ => .error (PyErr.typeError, [])
  else
    .ok gaWarnOutcome

/-- `GlobusAuthExceptionMiddleware.process_exception` (middleware.py lines
50-98).  Guard chain: not `AuthForbidden` leads to `None`;
`exception.args` not a tuple leads to `None`; `exception.args[0]` — the
subscript is evaluated inside the third `isinstance` guard, so an empty
args tuple raises IndexError — not a dict leads to `None`.  Then the
eligible-identity branch runs when `allowed_user_member_groups` is truthy,
else the configured join URL wins when truthy, else the payload
fallback. -/
def GlobusAuthExceptionMiddleware.process_exception
    (settings : Settings) (_request : Request) (exception : Exc) : GAResult :=
  match exception with
  | .authForbidden args =>
    match args with
    | .vtuple elems =>
      match elems with
      | [] => .error (PyErr.indexError, [])
      | first :: _ =>
        match first with
        | .vdict kwargs =>
          let allowed_user_member_groups := dictGet kwargs ("allowed_user_member_groups")
          if allowed_user_member_groups.truthy then
            allowedGroupsBranch allowed_user_member_groups
          else
            match settings.SOCIAL_AUTH_GLOBUS_GROUP_JOIN_URL with
            | some jurl =>
              if !(jurl == "") then
                .ok { decision := .redirect jurl, sessionWrites := [], logs := [] }
              else groupJoinFallback kwargs
            | none => groupJoinFallback kwargs
        | _ => .ok gaNoDecision
    | _ => .ok gaNoDecision
  | _ => .ok gaNoDecision

/-! ## Concrete inputs used by the theorems below -/

/-- A request used where the claims fix no particular request. -/
def demoRequest : Request := { user := "demo", fullPath := [] }

/-- The `allowed_user_member_groups` payload from the specification:
two records with identity identifiers `id1`, `id2` and usernames
`alice`, `bob`. -/
def demoGroups : PyVal := PyVal.vlist
  [PyVal.vdict [(("identity_id"), PyVal.vstr ("id1")), (("username"), PyVal.vstr ("alice"))],
   PyVal.vdict [(("identity_id"), PyVal.vstr ("id2")), (("username"), PyVal.vstr ("bob"))]]

/-- The `AuthForbidden` notice carrying `demoGroups`. -/
def demoNotice : Exc := Exc.authForbidden (PyVal.vtuple
  [PyVal.vdict [(("allowed_user_member_groups"), demoGroups)]])

/-- A payload carrying a non-empty `group_join_url` and no groups. -/
def joinKwargs : List (String × PyVal) :=
  [(("group_join_url"), PyVal.vstr ("https://app.globus.org/join"))]

/-- A payload carrying an empty-string `group_join_url` and no groups. -/
def emptyJoinKwargs : List (String × PyVal) := [(("group_join_url"), PyVal.vstr (""))]

/-! ## Round-trip facts about the URL encoding -/

/-- A safe byte encodes to a single character that is neither a plus nor a
percent sign and decodes back to the same byte. -/
theorem safe_char_facts : ∀ b : Fin 256, safeByte b = true →
    Char.ofNat b.val ≠ '+' ∧ Char.ofNat b.val ≠ '%' ∧
      byteOfChar (Char.ofNat b.val) = b := by
  set_option maxRecDepth 10000 in decide

/-- `hexVal` inverts `hexDigitChar` on digit values. -/
theorem hexVal_hexDigitChar : ∀ n : Fin 16, hexVal (hexDigitChar n.val) = some n.val := by
  set_option maxRecDepth 10000 in decide

/-- Decoding steps over an ordinary character (not a plus or percent sign)
one byte at a time. -/
theorem percentDecodeChars_cons_other (c : Char) (rest : List Char)
    (hp : c ≠ '%') (hq : c ≠ '+') :
    percentDecodeChars (c :: rest) = byteOfChar c :: percentDecodeChars rest := by
  cases rest with
  | nil => simp [percentDecodeChars, hp, hq]
  | cons x xs =>
    cases xs with
    | nil => simp [percentDecodeChars, hp, hq]
    | cons y ys => simp [percentDecodeChars, hp, hq]

/-- Decoding the encoding of one byte recovers that byte and continues with
the remainder. -/
theorem percentDecodeChars_encodeByte (b : Fin 256) (cs : List Char) :
    percentDecodeChars (encodeByteChars b ++ cs) = b :: percentDecodeChars cs := by
  by_cases hs : safeByte b = true
  · have hf := safe_char_facts b hs
    simp only [encodeByteChars, hs, if_true, List.cons_append, List.nil_append]
    rw [percentDecodeChars_cons_other _ _ hf.2.1 hf.1, hf.2.2]
  · by_cases h32 : b.val = 32
    · simp only [encodeByteChars, hs, if_false, h32, if_true, List.cons_append,
        List.nil_append, percentDecodeChars]
      congr 1
      apply Fin.ext
      simp [h32]
    · have h16a : b.val / 16 < 16 := by omega
      have h16b : b.val % 16 < 16 := Nat.mod_lt _ (by decide)
      have ha := hexVal_hexDigitChar ⟨b.val / 16, h16a⟩
      have hb := hexVal_hexDigitChar ⟨b.val % 16, h16b⟩
      simp only [encodeByteChars, hs, h32, if_false, List.cons_append, List.nil_append]
      simp only [percentDecodeChars, decodeEscape, ha, hb]
      congr 1
      apply Fin.ext
      have : 16 * (b.val / 16) + b.val % 16 = b.val := Nat.div_add_mod _ _
      simp [this, Nat.mod_eq_of_lt b.isLt]

/-- Decoding inverts `quotePlusChars` byte list by byte list. -/
theorem percentDecodeChars_quotePlusChars (bs : List (Fin 256)) :
    percentDecodeChars (quotePlusChars bs) = bs := by
  induction bs with
  | nil => rfl
  | cons b rest ih =>
    simp only [quotePlusChars]
    rw [percentDecodeChars_encodeByte, ih]

/-- URL decoding inverts `quote_plus` on every byte sequence. -/
theorem percentDecode_quotePlus (bs : List (Fin 256)) :
    percentDecode (quotePlus bs) = bs :=
  percentDecodeChars_quotePlusChars bs

/-! ## Shape facts about the group-auth handler -/

/-- When the eligible-identity branch returns normally its decision is the
redirect to the login-start route. -/
theorem allowedGroupsBranch_ok_decision (g : PyVal) (o : GAOutcome)
    (hok : allowedGroupsBranch g = .ok o) :
    o.decision = Decision.redirect socialBeginPath := by
  simp only [allowedGroupsBranch] at hok
  split at hok
  · exact absurd hok (by simp)
  · split at hok
    · exact absurd hok (by simp)
    · split at hok
      · exact absurd hok (by simp)
      · split at hok
        · exact absurd hok (by simp)
        · cases hok with
          | refl => rfl

/-- A redirect produced by the payload join-URL fallback is never the
empty string. -/
theorem groupJoinFallback_redirect_nonempty (kwargs : List (String × PyVal))
    (o : GAOutcome) (u : String) (hok : groupJoinFallback kwargs = .ok o)
    (hdec : o.decision = Decision.redirect u) : u ≠ "" := by
  simp only [groupJoinFallback] at hok
  split at hok
  · rename_i htruthy
    split at hok
    · rename_i s hs
      cases hok with
      | refl =>
        have hsu : s = u := by simpa using hdec
        subst hsu
        rw [hs, PyVal.truthy] at htruthy
        simpa using htruthy
    · exact absurd hok (by simp)
  · cases hok with
    | refl =>
      rw [gaWarnOutcome] at hdec
      simp at hdec

/-- A redirect produced by the group-auth handler is never the empty
string: each of its three redirect sources is non-empty when taken. -/
theorem ga_redirect_nonempty (s : Settings) (r : Request) (e : Exc)
    (o : GAOutcome) (u : String)
    (hok : GlobusAuthExceptionMiddleware.process_exception s r e = .ok o)
    (hdec : o.decision = Decision.redirect u) : u ≠ "" := by
  have hnd : ∀ (h : Except.ok gaNoDecision = (Except.ok o : GAResult)), u ≠ "" := by
    intro h
    cases h
    rw [gaNoDecision] at hdec
    simp at hdec
  cases e with
  | expiredGlobusToken => exact hnd hok
  | other => exact hnd hok
  | authForbidden args =>
    cases args with
    | vnone => exact hnd hok
    | vint n => exact hnd hok
    | vstr str => exact hnd hok
    | vlist xs => exact hnd hok
    | vdict es => exact hnd hok
    | vtuple elems =>
      cases elems with
      | nil => exact absurd hok (by simp [GlobusAuthExceptionMiddleware.process_exception])
      | cons first restElems =>
        cases first with
        | vnone => exact hnd hok
        | vint n => exact hnd hok
        | vstr str => exact hnd hok
        | vlist xs => exact hnd hok
        | vtuple xs => exact hnd hok
        | vdict kwargs =>
          simp only [GlobusAuthExceptionMiddleware.process_exception] at hok
          split at hok
          · have := allowedGroupsBranch_ok_decision _ _ hok
            rw [hdec] at this
            cases this
            simp [socialBeginPath]
          · split at hok
            · rename_i jurl hjurl
              split at hok
              · rename_i hne
                cases hok with
                | refl =>
                  have hju : jurl = u := by simpa using hdec
                  subst hju
                  simpa using hne
              · exact groupJoinFallback_redirect_nonempty _ _ _ hok hdec
            · exact groupJoinFallback_redirect_nonempty _ _ _ hok hdec

/-! ## Claims -/

/-- C1: for an `AuthForbidden` whose payload is not a mapping the handler
returns no decision without raising — true for a non-tuple `args`, for a
string first element and for an empty list first element; but for an args
tuple with no elements the `isinstance(exception.args[0], dict)` guard
itself raises IndexError, contradicting the claim (and the defensive
intent the guard chain documents), so the claim marks a code bug. -/
theorem authForbidden_malformed_payload_eval (s : Settings) (r : Request) :
    GlobusAuthExceptionMiddleware.process_exception s r
        (Exc.authForbidden (PyVal.vstr ("not a tuple"))) = .ok gaNoDecision ∧
    GlobusAuthExceptionMiddleware.process_exception s r
        (Exc.authForbidden (PyVal.vtuple [PyVal.vstr ("payload")])) = .ok gaNoDecision ∧
    GlobusAuthExceptionMiddleware.process_exception s r
        (Exc.authForbidden (PyVal.vtuple [PyVal.vlist []])) = .ok gaNoDecision ∧
    GlobusAuthExceptionMiddleware.process_exception s r
        (Exc.authForbidden (PyVal.vtuple [])) = .error (PyErr.indexError, []) :=
  ⟨rfl, rfl, rfl, rfl⟩

/-- C2: for the two-identity notice the handler stores under
`session_message` exactly the fixed template text — the `str.format`
template has no placeholder, so the computed username list is discarded —
and neither `alice` nor `bob` occurs in the stored message, contradicting
the claim that the message names the eligible identities; the source
clearly intends the names to appear (it computes and formats them), so
the claim marks a code bug. -/
theorem session_message_omits_usernames :
    GlobusAuthExceptionMiddleware.process_exception
        { SOCIAL_AUTH_GLOBUS_GROUP_JOIN_URL := none } demoRequest demoNotice =
      .ok { decision := Decision.redirect socialBeginPath
            sessionWrites := [(("session_message"), sessionMessageText),
                              (("session_required_identities"), ("id1,id2"))]
            logs := [] } ∧
    ¬ List.IsInfix (String.toList ("alice")) (String.toList sessionMessageText) ∧
    ¬ List.IsInfix (String.toList ("bob")) (String.toList sessionMessageText) :=
  ⟨rfl, by set_option maxRecDepth 40000 in decide, by set_option maxRecDepth 40000 in decide⟩

/-- C3: for the notice with groups `id1`/`alice` and `id2`/`bob` (any
settings), the stored `session_required_identities` is exactly `id1,id2`
(payload order, comma-joined) and the decision is a redirect to the
login-start route. -/
theorem eligible_identities_session_and_redirect (s : Settings) :
    GlobusAuthExceptionMiddleware.process_exception s demoRequest demoNotice =
      .ok { decision := Decision.redirect socialBeginPath
            sessionWrites := [(("session_message"), sessionMessageText),
                              (("session_required_identities"), ("id1,id2"))]
            logs := [] } := rfl

/-- C4 counterexample: with `SOCIAL_AUTH_GLOBUS_GROUP_JOIN_URL` set to the
empty string and a payload `group_join_url`, the handler redirects to the
payload URL, not to the configured value, refuting the claim that a set
configuration always wins. -/
theorem config_empty_string_not_redirected :
    GlobusAuthExceptionMiddleware.process_exception
        { SOCIAL_AUTH_GLOBUS_GROUP_JOIN_URL := some ("") } demoRequest
        (Exc.authForbidden (PyVal.vtuple [PyVal.vdict joinKwargs])) =
      .ok { decision := Decision.redirect ("https://app.globus.org/join")
            sessionWrites := [], logs := [] } ∧
    Decision.redirect ("https://app.globus.org/join") ≠ Decision.redirect ("") :=
  ⟨rfl, by decide⟩

/-- C4 as amended: whenever `allowed_user_member_groups` is falsy and the
configuration is set to a non-empty string, the handler redirects to
exactly the configured URL, regardless of any payload `group_join_url`. -/
theorem config_join_url_redirect (kwargs : List (String × PyVal)) (restElems : List PyVal)
    (r : Request) (jurl : String)
    (hg : (dictGet kwargs ("allowed_user_member_groups")).truthy = false)
    (hne : jurl ≠ "") :
    GlobusAuthExceptionMiddleware.process_exception
        { SOCIAL_AUTH_GLOBUS_GROUP_JOIN_URL := some jurl } r
        (Exc.authForbidden (PyVal.vtuple (PyVal.vdict kwargs :: restElems))) =
      .ok { decision := .redirect jurl, sessionWrites := [], logs := [] } := by
  simp only [GlobusAuthExceptionMiddleware.process_exception, hg]
  simp [hne]

/-- Witness for the amended C4, at the configured URL of the
specification and a payload that also carries a join URL. -/
theorem config_join_url_redirect_witness :
    ((dictGet joinKwargs ("allowed_user_member_groups")).truthy = false) ∧
    (("https://example.org/join" : String) ≠ ("" : String)) ∧
    GlobusAuthExceptionMiddleware.process_exception
        { SOCIAL_AUTH_GLOBUS_GROUP_JOIN_URL := some ("https://example.org/join") } demoRequest
        (Exc.authForbidden (PyVal.vtuple [PyVal.vdict joinKwargs])) =
      .ok { decision := Decision.redirect ("https://example.org/join")
            sessionWrites := [], logs := [] } :=
  ⟨rfl, by decide,
   config_join_url_redirect joinKwargs [] demoRequest ("https://example.org/join") rfl
     (by decide)⟩

/-- C5: on `ExpiredGlobusToken` the redirect URL is the login-start path
followed by `next=` and the `quote_plus`-encoded original full path, and
URL-decoding that encoded value gives back exactly the original full path
(query string included). -/
theorem expired_token_redirect_roundtrip (r : Request) :
    ExpiredTokenMiddleware.process_exception r Exc.expiredGlobusToken =
      { decision := Decision.redirect
          (socialBeginPath ++ ("?") ++ ("next=") ++ quotePlus r.fullPath)
        loggedOut := true
        logs := [{ level := LogLevel.info
                   message := ("Tokens expired for user ") ++ r.user ++
                     (", redirecting to login.") }] } ∧
    percentDecode (quotePlus r.fullPath) = r.fullPath :=
  ⟨rfl, percentDecode_quotePlus r.fullPath⟩

/-- C6 counterexample: with no configuration and a payload whose
`group_join_url` field is present but the empty string, the handler
returns no decision (with the warning), not a redirect to that payload
value, refuting the claim that a present payload field always wins. -/
theorem payload_empty_string_not_redirected :
    GlobusAuthExceptionMiddleware.process_exception
        { SOCIAL_AUTH_GLOBUS_GROUP_JOIN_URL := none } demoRequest
        (Exc.authForbidden (PyVal.vtuple [PyVal.vdict emptyJoinKwargs])) = .ok gaWarnOutcome ∧
    gaWarnOutcome.decision = Decision.noDecision ∧
    Decision.noDecision ≠ Decision.redirect ("") :=
  ⟨rfl, rfl, by decide⟩

/-- C6 as amended: whenever `allowed_user_member_groups` is falsy, the
configuration is not set and the payload carries a non-empty string
`group_join_url`, the handler redirects to exactly that payload URL. -/
theorem payload_join_url_redirect (kwargs : List (String × PyVal)) (restElems : List PyVal)
    (r : Request) (u : String)
    (hg : (dictGet kwargs ("allowed_user_member_groups")).truthy = false)
    (hu : dictGet kwargs ("group_join_url") = PyVal.vstr u)
    (hne : u ≠ "") :
    GlobusAuthExceptionMiddleware.process_exception
        { SOCIAL_AUTH_GLOBUS_GROUP_JOIN_URL := none } r
        (Exc.authForbidden (PyVal.vtuple (PyVal.vdict kwargs :: restElems))) =
      .ok { decision := .redirect u, sessionWrites := [], logs := [] } := by
  simp only [GlobusAuthExceptionMiddleware.process_exception, hg]
  simp only [groupJoinFallback, hu]
  simp [PyVal.truthy, hne]

/-- Witness for the amended C6, at the payload URL of the
specification. -/
theorem payload_join_url_redirect_witness :
    ((dictGet joinKwargs ("allowed_user_member_groups")).truthy = false) ∧
    (dictGet joinKwargs ("group_join_url") = PyVal.vstr ("https://app.globus.org/join")) ∧
    (("https://app.globus.org/join" : String) ≠ ("" : String)) ∧
    GlobusAuthExceptionMiddleware.process_exception
        { SOCIAL_AUTH_GLOBUS_GROUP_JOIN_URL := none } demoRequest
        (Exc.authForbidden (PyVal.vtuple [PyVal.vdict joinKwargs])) =
      .ok { decision := Decision.redirect ("https://app.globus.org/join")
            sessionWrites := [], logs := [] } :=
  ⟨rfl, rfl, by decide,
   payload_join_url_redirect joinKwargs [] demoRequest ("https://app.globus.org/join") rfl rfl
     (by decide)⟩

/-- C7: with falsy `allowed_user_member_groups`, a falsy configured join
URL and a falsy payload join URL, the handler returns no decision, writes
nothing to the session and emits exactly one warning-level log entry. -/
theorem no_join_url_warns_once (settings : Settings) (kwargs : List (String × PyVal))
    (restElems : List PyVal) (r : Request)
    (hg : (dictGet kwargs ("allowed_user_member_groups")).truthy = false)
    (hj : optStrTruthy settings.SOCIAL_AUTH_GLOBUS_GROUP_JOIN_URL = false)
    (hp : (dictGet kwargs ("group_join_url")).truthy = false) :
    GlobusAuthExceptionMiddleware.process_exception settings r
        (Exc.authForbidden (PyVal.vtuple (PyVal.vdict kwargs :: restElems))) =
      .ok gaWarnOutcome ∧
    (gaWarnOutcome.logs.filter (fun l => l.level == LogLevel.warning)).length = 1 ∧
    gaWarnOutcome.decision = Decision.noDecision := by
  obtain ⟨j⟩ := settings
  refine ⟨?_, by rfl, by rfl⟩
  cases j with
  | none =>
    simp only [GlobusAuthExceptionMiddleware.process_exception, hg, groupJoinFallback, hp]
    simp
  | some s =>
    have hs : s = "" := by
      simpa [optStrTruthy] using hj
    subst hs
    simp only [GlobusAuthExceptionMiddleware.process_exception, hg, groupJoinFallback, hp]
    simp

/-- Witness for C7, with the setting absent and an empty payload. -/
theorem no_join_url_warns_once_witness :
    ((dictGet ([] : List (String × PyVal)) ("allowed_user_member_groups")).truthy = false) ∧
    (optStrTruthy none = false) ∧
    ((dictGet ([] : List (String × PyVal)) ("group_join_url")).truthy = false) ∧
    (GlobusAuthExceptionMiddleware.process_exception
        { SOCIAL_AUTH_GLOBUS_GROUP_JOIN_URL := none } demoRequest
        (Exc.authForbidden (PyVal.vtuple [PyVal.vdict []])) = .ok gaWarnOutcome ∧
     (gaWarnOutcome.logs.filter (fun l => l.level == LogLevel.warning)).length = 1 ∧
     gaWarnOutcome.decision = Decision.noDecision) :=
  ⟨rfl, rfl, rfl,
   no_join_url_warns_once { SOCIAL_AUTH_GLOBUS_GROUP_JOIN_URL := none } [] [] demoRequest
     rfl rfl rfl⟩

/-- C8: for every exception other than `ExpiredGlobusToken` the
expired-token handler returns no decision, performs no logout, writes
nothing and logs nothing. -/
theorem non_expired_exception_untouched (r : Request) (e : Exc)
    (h : e ≠ Exc.expiredGlobusToken) :
    ExpiredTokenMiddleware.process_exception r e =
      { decision := Decision.noDecision, loggedOut := false, logs := [] } := by
  cases e with
  | expiredGlobusToken => exact absurd rfl h
  | authForbidden args => rfl
  | other => rfl

/-- Witness for C8 at an unrelated exception. -/
theorem non_expired_exception_untouched_witness :
    (Exc.other ≠ Exc.expiredGlobusToken) ∧
    ExpiredTokenMiddleware.process_exception demoRequest Exc.other =
      { decision := Decision.noDecision, loggedOut := false, logs := [] } :=
  ⟨fun h => Exc.noConfusion h,
   non_expired_exception_untouched demoRequest Exc.other (fun h => Exc.noConfusion h)⟩

/-- C9: both handlers are deterministic — two invocations on equal
request, exception and settings produce equal outcomes (redirect URLs
included). -/
theorem handlers_deterministic (r1 r2 : Request) (e1 e2 : Exc) (s1 s2 : Settings)
    (hr : r1 = r2) (he : e1 = e2) (hs : s1 = s2) :
    ExpiredTokenMiddleware.process_exception r1 e1 =
      ExpiredTokenMiddleware.process_exception r2 e2 ∧
    GlobusAuthExceptionMiddleware.process_exception s1 r1 e1 =
      GlobusAuthExceptionMiddleware.process_exception s2 r2 e2 := by
  subst hr
  subst he
  subst hs
  exact ⟨rfl, rfl⟩

/-- Witness for C9 at concrete equal inputs. -/
theorem handlers_deterministic_witness :
    ExpiredTokenMiddleware.process_exception demoRequest Exc.expiredGlobusToken =
      ExpiredTokenMiddleware.process_exception demoRequest Exc.expiredGlobusToken ∧
    GlobusAuthExceptionMiddleware.process_exception
        { SOCIAL_AUTH_GLOBUS_GROUP_JOIN_URL := none } demoRequest Exc.expiredGlobusToken =
      GlobusAuthExceptionMiddleware.process_exception
        { SOCIAL_AUTH_GLOBUS_GROUP_JOIN_URL := none } demoRequest Exc.expiredGlobusToken :=
  handlers_deterministic demoRequest demoRequest Exc.expiredGlobusToken Exc.expiredGlobusToken
    { SOCIAL_AUTH_GLOBUS_GROUP_JOIN_URL := none } { SOCIAL_AUTH_GLOBUS_GROUP_JOIN_URL := none }
    rfl rfl rfl

/-- C10: both join-URL sources are tested by truthiness, not presence —
with falsy groups, a configuration set to the empty string behaves
exactly like an absent configuration (control falls through to the
payload branch); if the payload `group_join_url` is likewise the empty
string the handler falls through to the logged no-decision fallback; and
no redirect the handler ever returns targets the empty string. -/
theorem join_url_truthiness :
    (∀ (kwargs : List (String × PyVal)) (restElems : List PyVal) (r : Request),
      (dictGet kwargs ("allowed_user_member_groups")).truthy = false →
      GlobusAuthExceptionMiddleware.process_exception
          { SOCIAL_AUTH_GLOBUS_GROUP_JOIN_URL := some ("") } r
          (Exc.authForbidden (PyVal.vtuple (PyVal.vdict kwargs :: restElems))) =
        GlobusAuthExceptionMiddleware.process_exception
          { SOCIAL_AUTH_GLOBUS_GROUP_JOIN_URL := none } r
          (Exc.authForbidden (PyVal.vtuple (PyVal.vdict kwargs :: restElems)))) ∧
    (∀ (kwargs : List (String × PyVal)) (restElems : List PyVal) (r : Request),
      (dictGet kwargs ("allowed_user_member_groups")).truthy = false →
      dictGet kwargs ("group_join_url") = PyVal.vstr ("") →
      GlobusAuthExceptionMiddleware.process_exception
          { SOCIAL_AUTH_GLOBUS_GROUP_JOIN_URL := some ("") } r
          (Exc.authForbidden (PyVal.vtuple (PyVal.vdict kwargs :: restElems))) =
        .ok gaWarnOutcome) ∧
    (∀ (s : Settings) (r : Request) (e : Exc) (o : GAOutcome) (u : String),
      GlobusAuthExceptionMiddleware.process_exception s r e = .ok o →
      o.decision = Decision.redirect u → u ≠ "") := by
  refine ⟨?_, ?_, ga_redirect_nonempty⟩
  · intro kwargs restElems r hg
    simp only [GlobusAuthExceptionMiddleware.process_exception, hg]
    simp
  · intro kwargs restElems r hg hu
    simp only [GlobusAuthExceptionMiddleware.process_exception, hg]
    simp only [groupJoinFallback, hu]
    simp [PyVal.truthy]

/-- Witness for C10, at an empty-string configuration, an empty-string
payload URL and a non-empty redirect. -/
theorem join_url_truthiness_witness :
    (GlobusAuthExceptionMiddleware.process_exception
        { SOCIAL_AUTH_GLOBUS_GROUP_JOIN_URL := some ("") } demoRequest
        (Exc.authForbidden (PyVal.vtuple [PyVal.vdict emptyJoinKwargs])) =
      GlobusAuthExceptionMiddleware.process_exception
        { SOCIAL_AUTH_GLOBUS_GROUP_JOIN_URL := none } demoRequest
        (Exc.authForbidden (PyVal.vtuple [PyVal.vdict emptyJoinKwargs]))) ∧
    (GlobusAuthExceptionMiddleware.process_exception
        { SOCIAL_AUTH_GLOBUS_GROUP_JOIN_URL := some ("") } demoRequest
        (Exc.authForbidden (PyVal.vtuple [PyVal.vdict emptyJoinKwargs])) =
      .ok gaWarnOutcome) ∧
    (("https://app.globus.org/join" : String) ≠ "") :=
  ⟨join_url_truthiness.1 emptyJoinKwargs [] demoRequest rfl,
   join_url_truthiness.2.1 emptyJoinKwargs [] demoRequest rfl rfl,
   join_url_truthiness.2.2 { SOCIAL_AUTH_GLOBUS_GROUP_JOIN_URL := none } demoRequest
     (Exc.authForbidden (PyVal.vtuple [PyVal.vdict joinKwargs]))
     { decision := Decision.redirect ("https://app.globus.org/join")
       sessionWrites := [], logs := [] }
     ("https://app.globus.org/join") rfl rfl⟩
